import Mathlib

/-!
Shallow embedding of the digi-me core (src/digi_me/core/context_manager.py,
src/digi_me/core/personality.py, src/digi_me/core/clone.py and the general
settings of src/digi_me/config/settings.py), together with theorems that
settle the behavioural claims about the message pipeline, the conversation
store and the personality engine.

Modelling conventions:
- timestamps are integers (`datetime` instants measured in days, so that
  `timedelta(days = w)` is the integer `w`); times of day are integers
  measured in minutes after midnight (`time(8, 0)` is `480`);
- probabilities and trait weights are exact rationals;
- Python `dict` values (`conversations`, `conversation_metadata`, `traits`,
  `relationships`, `personality_adjustments`) are association lists in
  insertion order; `defaultdict` reads are modelled by an explicit
  read-and-insert operation returning the new state;
- the uniform `random.random()` draw is an explicit rational parameter in
  `[0, 1)`, and `datetime.now()` an explicit parameter, so every function is
  a pure function of its inputs.
-/

/-- Association-list read, modelling Python `d.get(k)` / `k in d` on a dict
whose items are kept in insertion order. -/
def alistFind {β : Type} (l : List (String × β)) (k : String) : Option β :=
  match l with
  | [] => none
  | (k', v) :: t => if k' = k then some v else alistFind t k

/-- Association-list write, modelling Python `d[k] = v`: overwrite in place
when the key exists, otherwise append at the end (dict insertion order). -/
def alistSet {β : Type} (l : List (String × β)) (k : String) (v : β) :
    List (String × β) :=
  match l with
  | [] => [(k, v)]
  | (k', v') :: t => if k' = k then (k, v) :: t else (k', v') :: alistSet t k v

/-- The last `n` elements of a list, in order: the contents of a
`collections.deque(maxlen = n)` after appending the elements of `l` one by
one. -/
def takeLast {α : Type} (n : Nat) (l : List α) : List α :=
  (l.reverse.take n).reverse

/-- Predicate `matchAt h nd` holds when `nd` occurs at the very start of `h`. -/
def matchAt : List Char → List Char → Bool
  | _, [] => true
  | [], _ :: _ => false
  | c :: cs, d :: ds => c = d && matchAt cs ds

/-- Predicate `occursIn nd h`: `nd` occurs as a contiguous block somewhere in `h`. -/
def occursIn (nd : List Char) : List Char → Bool
  | [] => nd.isEmpty
  | c :: cs => matchAt (c :: cs) nd || occursIn nd cs

/-- Python `needle in haystack` on strings: substring containment. -/
def strContains (haystack needle : String) : Bool :=
  occursIn needle.data haystack.data

/-- Python `s.lower()`, character by character (ASCII case folding, which
covers every configured trigger word and sender name). -/
def pyLower (s : String) : String :=
  String.mk (s.data.map Char.toLower)

/-! ## ContextManager (src/digi_me/core/context_manager.py) -/

/-- Embeds `ConversationMessage` (context_manager.py lines 16-30).  `to_dict` only
re-serialises these three fields, so the returned dictionaries are modelled
by the message values themselves. -/
structure ConversationMessage where
  content : String
  role : String
  timestamp : Int
deriving DecidableEq

/-- One entry of `conversation_metadata` (a plain `dict` in the source; the
absent-key state is all fields absent/zero). -/
structure ContextMetadata where
  last_activity : Option Int := none
  message_count : Nat := 0
  first_message : Option Int := none
deriving DecidableEq

/-- Embeds the `ContextManager` state (context_manager.py lines 33-58). -/
structure ContextManager where
  max_messages_per_conversation : Nat
  context_window_days : Int
  conversations : List (String × List ConversationMessage)
  conversation_metadata : List (String × ContextMetadata)
deriving DecidableEq

namespace ContextManager

/-- Embeds `ContextManager.__init__` (defaults `100` and `30` in the source). -/
def init (maxMessages : Nat) (windowDays : Int) : ContextManager :=
  { max_messages_per_conversation := maxMessages
    context_window_days := windowDays
    conversations := []
    conversation_metadata := [] }

/-- Embeds the read `self.conversations[key]` where `conversations` is a
`defaultdict(lambda: deque(maxlen = max_messages_per_conversation))`:
returns the stored deque, inserting a fresh empty one when the key is
absent.  The second component is the (possibly mutated) state. -/
def conversationsGet (cm : ContextManager) (key : String) :
    List ConversationMessage × ContextManager :=
  match alistFind cm.conversations key with
  | some dq => (dq, cm)
  | none => ([], { cm with conversations := cm.conversations ++ [(key, [])] })

/-- Embeds the read `self.conversation_metadata[key]` (a `defaultdict(dict)`): the stored
entry, or the empty entry when absent. -/
def metadataGet (cm : ContextManager) (key : String) : ContextMetadata :=
  (alistFind cm.conversation_metadata key).getD {}

/-- Embeds `ContextManager.add_message` (lines 60-81).  `timestamp` is the optional
argument; `ConversationMessage.__init__` resolves `timestamp or now` with
`now` the current instant.  Appending to a deque with `maxlen = N` keeps the
last `N` elements. -/
def add_message (cm : ContextManager) (conversation_key content role : String)
    (timestamp : Option Int) (now : Int) : ContextManager :=
  let message : ConversationMessage :=
    { content := content, role := role, timestamp := timestamp.getD now }
  let (dq, cm1) := conversationsGet cm conversation_key
  let dq1 := takeLast cm.max_messages_per_conversation (dq ++ [message])
  let cm2 := { cm1 with conversations := alistSet cm1.conversations conversation_key dq1 }
  let metadata := metadataGet cm2 conversation_key
  let metadata1 :=
    { metadata with
        last_activity := some message.timestamp
        message_count := dq1.length
        first_message :=
          match metadata.first_message with
          | some t => some t
          | none => some message.timestamp }
  { cm2 with
      conversation_metadata := alistSet cm2.conversation_metadata conversation_key metadata1 }

/-- Embeds `ContextManager.get_conversation_history` (lines 83-104).  The read of
`self.conversations[conversation_key]` goes through the `defaultdict`, so the
function also returns the resulting state.  `if limit and len(messages) >
limit` is integer truthiness: a `None` or `0` limit never truncates. -/
def get_conversation_history (cm : ContextManager) (conversation_key : String)
    (limit : Option Nat) (now : Int) :
    List ConversationMessage × ContextManager :=
  let (messages, cm1) := conversationsGet cm conversation_key
  let cutoff_date : Int := now - cm.context_window_days
  let messages := messages.filter (fun msg => cutoff_date ≤ msg.timestamp)
  let messages :=
    match limit with
    | none => messages
    | some l => if l ≠ 0 ∧ messages.length > l then takeLast l messages else messages
  (messages, cm1)

/-- Runs a sequence of `add_message` calls to one key (content, role,
optional timestamp), as in the bounded-history property. -/
def addAll (cm : ContextManager) (k : String)
    (ms : List (String × String × Option Int)) (now : Int) : ContextManager :=
  ms.foldl (fun acc p => acc.add_message k p.1 p.2.1 p.2.2 now) cm

/-- Builds the `ConversationMessage` produced by one `add_message` argument
triple. -/
def mkMessage (now : Int) (p : String × String × Option Int) : ConversationMessage :=
  { content := p.1, role := p.2.1, timestamp := p.2.2.getD now }

end ContextManager

/-! ## PersonalityEngine (src/digi_me/core/personality.py) -/

/-- Embeds the `CommunicationStyle` dataclass (personality.py lines 28-35). -/
structure CommunicationStyle where
  formality_level : Rat
  response_length : String
  emoji_usage : Rat
  humor_level : Rat
  technical_depth : Rat
deriving DecidableEq

/-- Embeds the `PersonalityTrait` dataclass (personality.py lines 18-25). -/
structure PersonalityTrait where
  name : String
  weight : Rat
  description : String
  examples : List String
  active_contexts : List String
deriving DecidableEq

/-- Embeds the `RelationshipProfile` dataclass (personality.py lines 38-48). -/
structure RelationshipProfile where
  contact_identifier : String
  relationship_type : String
  closeness_level : Rat
  communication_style_override : Option CommunicationStyle
  personality_adjustments : List (String × Rat)
  last_interaction : Option Int
  interaction_frequency : Int
  notes : String
deriving DecidableEq

/-- Embeds the `PersonalityEngine` state (personality.py lines 51-86).  `active_hours`
is held as minutes after midnight: `time(8, 0)` is `480` and `time(22, 0)`
is `1320`. -/
structure PersonalityEngine where
  traits : List (String × PersonalityTrait)
  base_communication_style : CommunicationStyle
  relationships : List (String × RelationshipProfile)
  response_probability : Rat
  active_hours_start : Int := 480
  active_hours_end : Int := 1320
deriving DecidableEq

namespace PersonalityEngine

/-- Embeds `PersonalityEngine._get_active_traits` (personality.py lines 177-192):
each configured trait starts from its base weight; only when a relationship
profile exists *and* carries an adjustment for that trait is
`max(0.0, min(1.0, weight + adjustment))` applied. -/
def get_active_traits (e : PersonalityEngine)
    (relationship : Option RelationshipProfile) : List (String × Rat) :=
  e.traits.map (fun p =>
    let weight := p.2.weight
    let weight :=
      match relationship with
      | some r =>
          match alistFind r.personality_adjustments p.1 with
          | some adjustment => max 0 (min 1 (weight + adjustment))
          | none => weight
      | none => weight
    (p.1, weight))

/-- The relationship resolution `self.relationships.get(sender)` performed
by `get_context_for_sender` (personality.py line 145) followed by the
`_get_active_traits` call (line 154): the effective trait weights computed
for a sender. -/
def active_traits_for_sender (e : PersonalityEngine) (sender : String) :
    List (String × Rat) :=
  get_active_traits e (alistFind e.relationships sender)

/-- Trigger-word list hard-coded in `PersonalityEngine.should_respond`
(personality.py line 257). -/
def contentTriggers : List String := ["help", "question", "urgent", "please"]

/-- The probability computed by `PersonalityEngine.should_respond`
(personality.py lines 244-263) before the final clamp and random
comparison.  `timeOfDay` is `datetime.now().time()` in minutes. -/
def response_prob (e : PersonalityEngine) (sender content : String)
    (timeOfDay : Int) : Rat :=
  let content_l := pyLower content
  let base_prob := e.response_probability
  let base_prob :=
    match alistFind e.relationships sender with
    | some relationship =>
        base_prob * (1 / 2 + 1 / 2 * relationship.closeness_level)
    | none => base_prob
  let base_prob :=
    if contentTriggers.any (fun word => strContains content_l word) then
      base_prob * (12 / 10)
    else base_prob
  if ¬ (e.active_hours_start ≤ timeOfDay ∧ timeOfDay ≤ e.active_hours_end) then
    base_prob * (3 / 10)
  else base_prob

/-- Embeds `PersonalityEngine.should_respond` (personality.py lines 234-266):
`random.random() < min(1.0, base_prob)`, with the uniform draw an explicit
parameter. -/
def should_respond (e : PersonalityEngine) (sender content : String)
    (timeOfDay : Int) (draw : Rat) : Bool :=
  draw < min 1 (response_prob e sender content timeOfDay)

/-- Embeds `PersonalityEngine.update_interaction_history` (personality.py lines
268-274): a no-op unless the sender already has a relationship profile. -/
def update_interaction_history (e : PersonalityEngine) (sender : String)
    (message_type : String) (now : Int) : PersonalityEngine :=
  match alistFind e.relationships sender with
  | some relationship =>
      let relationship := { relationship with last_interaction := some now }
      let relationship :=
        if message_type = "received" then
          { relationship with
              interaction_frequency := relationship.interaction_frequency + 1 }
        else relationship
      { e with relationships := alistSet e.relationships sender relationship }
  | none => e

end PersonalityEngine

/-! ## Settings (src/digi_me/config/settings.py) and DigitalClone
(src/digi_me/core/clone.py) -/

/-- The general settings consumed by the clone (settings.py lines 42-43);
with the default configuration `ignore_senders = []` and
`response_triggers = ["help", "question", "urgent", "please"]` (lines
137-138 of the default config). -/
structure Settings where
  ignore_senders : List String
  response_triggers : List String
deriving DecidableEq

/-- Default general settings (settings.py `_get_default_config`). -/
def Settings.default : Settings :=
  { ignore_senders := []
    response_triggers := ["help", "question", "urgent", "please"] }

/-- Embeds the `DigitalClone` state (clone.py lines 32-47).  The bound LLM provider
only matters through its presence (`set_llm_provider` / the `start` check)
and through the value its `generate_response` call returns, which
`process_message` receives as an explicit argument, so it is modelled as an
`Option Unit`. -/
structure DigitalClone where
  settings : Settings
  personality_engine : PersonalityEngine
  context_manager : ContextManager
  llm_provider : Option Unit
  is_running : Bool

namespace DigitalClone

/-- Embeds `DigitalClone._should_respond` (clone.py lines 167-191).  The first
component is the returned verdict; the second instruments whether the final
branch — `self.personality_engine.should_respond(message_data)` — was
reached and evaluated (it is `false` on the ignore-list and trigger-word
short-circuits). -/
def should_respond_check (c : DigitalClone) (sender content : String)
    (timeOfDay : Int) (draw : Rat) : Bool × Bool :=
  let content_l := pyLower content
  if c.settings.ignore_senders.contains sender then (false, false)
  else if c.settings.response_triggers.any (fun word => strContains content_l word) then
    (true, false)
  else
    (c.personality_engine.should_respond sender content timeOfDay draw, true)

/-- Outcome of a `start()` call (clone.py lines 66-88): an early normal
return when already running, a raised `ValueError` when no LLM provider is
bound, or a successful start. -/
inductive StartOutcome where
  | alreadyRunningNoop
  | errNoGenerator
  | started
deriving DecidableEq

/-- Whether a `start()` outcome is an error (a raised exception) in the
source: only the `raise ValueError("LLM Provider must be set before
starting")` path is; the already-running path logs a warning and returns
normally. -/
def StartOutcome.isError : StartOutcome → Bool
  | .errNoGenerator => true
  | _ => false

/-- Embeds `DigitalClone.start` (clone.py lines 66-88), with platform start-up
(there are no registered platforms in the core model) elided. -/
def start (c : DigitalClone) : StartOutcome × DigitalClone :=
  if c.is_running then (.alreadyRunningNoop, c)
  else if c.llm_provider = none then (.errNoGenerator, c)
  else (.started, { c with is_running := true })

/-- Python truthiness of an `Optional[str]`: `None` and `""` are falsy. -/
def pyTruthyStr : Option String → Bool
  | none => false
  | some s => s ≠ ""

/-- Embeds `DigitalClone.process_message` (clone.py lines 109-165).  `genResult`
is the value returned by `self.llm_provider.generate_response(prompt_data)`
(the generator is an external collaborator); `draw` is the uniform draw the
personality engine would consume; `timeOfDay` and `now` are the current
time of day and instant.  The personality context built by
`get_context_for_sender` and the prompt dictionary have no effect on the
clone's state or on the returned value, so they are not materialised. -/
def process_message (c : DigitalClone) (platform_name sender content : String)
    (timeOfDay : Int) (draw : Rat) (now : Int) (genResult : Option String) :
    Option String × DigitalClone :=
  if c.is_running = false then (none, c)
  else
    let conversation_key := platform_name ++ ":" ++ sender
    let cm1 := c.context_manager.add_message conversation_key content "user" none now
    let c1 := { c with context_manager := cm1 }
    -- `self._should_respond` reads only `settings` and `personality_engine`,
    -- neither of which the `add_message` above touches, so it is evaluated
    -- here on the incoming state.
    if (should_respond_check c sender content timeOfDay draw).1 = false then (none, c1)
    else
      -- `conversation_history` (the first component of this call, which only
      -- feeds the LLM prompt) is dropped; the `defaultdict` state effect of
      -- the read is kept.
      let cm2 := (cm1.get_conversation_history conversation_key none now).2
      let c2 := { c1 with context_manager := cm2 }
      match genResult with
      | none => (none, c2)
      | some response =>
          if response ≠ "" then
            (some response,
              { c2 with
                  context_manager :=
                    cm2.add_message conversation_key response "assistant" none now })
          else (some response, c2)

end DigitalClone

/-! ## Concrete configurations used by witnesses and counterexamples -/

/-- Communication style built from the default configuration values
(settings.py lines 97-103 feeding personality.py lines 65-71). -/
def sampleStyle : CommunicationStyle :=
  { formality_level := 1 / 2
    response_length := "medium"
    emoji_usage := 3 / 10
    humor_level := 4 / 10
    technical_depth := 6 / 10 }

/-- Engine with the default behavioural parameters: base response
probability `0.8`, active hours 08:00-22:00, no relationship profiles.  The
trait table does not influence the respond/no-respond path, so it is left
empty here. -/
def sampleEngine : PersonalityEngine :=
  { traits := []
    base_communication_style := sampleStyle
    relationships := []
    response_probability := 8 / 10 }

/-- Running clone with the default settings and a bound LLM provider. -/
def sampleClone : DigitalClone :=
  { settings := Settings.default
    personality_engine := sampleEngine
    context_manager := ContextManager.init 100 30
    llm_provider := some ()
    is_running := true }

/-- Running clone whose configured ignore list contains the sender
"blocked". -/
def cloneIgnore : DigitalClone :=
  { sampleClone with
      settings :=
        { ignore_senders := ["blocked"]
          response_triggers := ["help", "question", "urgent", "please"] } }

/-- Running clone with no LLM provider bound. -/
def runningNoGenClone : DigitalClone :=
  { sampleClone with llm_provider := none }

/-- Stopped clone with no LLM provider bound. -/
def stoppedNoGenClone : DigitalClone :=
  { sampleClone with llm_provider := none, is_running := false }

/-- Engine holding a single configured trait whose base weight `2` lies
outside `[0, 1]`, and no relationship profiles. -/
def overloadEngine : PersonalityEngine :=
  { traits :=
      [("overload",
        { name := "overload", weight := 2, description := "out of range",
          examples := [], active_contexts := [] })]
    base_communication_style := sampleStyle
    relationships := []
    response_probability := 8 / 10 }

/-- Relationship profile for the sender "alice" carrying a `+1/2`
adjustment of the trait "helpfulness". -/
def aliceProfile : RelationshipProfile :=
  { contact_identifier := "alice"
    relationship_type := "friend"
    closeness_level := 1 / 2
    communication_style_override := none
    personality_adjustments := [("helpfulness", 1 / 2)]
    last_interaction := none
    interaction_frequency := 0
    notes := "" }

/-- Engine holding the trait "helpfulness" with base weight `8/10` and the
relationship profile of "alice". -/
def adjustEngine : PersonalityEngine :=
  { traits :=
      [("helpfulness",
        { name := "helpfulness", weight := 8 / 10, description := "",
          examples := [], active_contexts := [] })]
    base_communication_style := sampleStyle
    relationships := [("alice", aliceProfile)]
    response_probability := 8 / 10 }

/-! ## Helper lemmas -/

theorem alistFind_alistSet_self {β : Type} (l : List (String × β)) (k : String) (v : β) :
    alistFind (alistSet l k v) k = some v := by
  induction l with
  | nil => simp [alistFind, alistSet]
  | cons p t ih =>
      obtain ⟨k', v'⟩ := p
      by_cases h : k' = k
      · simp [alistSet, alistFind, h]
      · simp [alistSet, alistFind, h, ih]

theorem length_takeLast {α : Type} (n : Nat) (l : List α) :
    (takeLast n l).length = min n l.length := by
  simp [takeLast]

theorem mem_of_mem_takeLast {α : Type} {n : Nat} {l : List α} {x : α}
    (h : x ∈ takeLast n l) : x ∈ l := by
  simp only [takeLast, List.mem_reverse] at h
  exact List.mem_reverse.mp (List.mem_of_mem_take h)

theorem takeLast_idem_append {α : Type} (n : Nat) (a b : List α) :
    takeLast n (takeLast n a ++ b) = takeLast n (a ++ b) := by
  unfold takeLast
  rw [List.reverse_append, List.reverse_reverse, List.reverse_append]
  congr 1
  rw [List.take_append_eq_append_take, List.take_append_eq_append_take, List.take_take,
    Nat.min_eq_left (Nat.sub_le _ _)]

theorem takeLast_append_one {α : Type} {n : Nat} (hn : 1 ≤ n) (l : List α) (x : α) :
    takeLast n (l ++ [x]) = takeLast (n - 1) l ++ [x] := by
  obtain ⟨m, rfl⟩ := Nat.exists_eq_add_of_le hn
  unfold takeLast
  rw [List.reverse_append]
  simp [List.take_succ_cons, Nat.add_comm 1 m]

theorem foldl_takeLast_append {α : Type} (n : Nat) (ms : List α) :
    ∀ a : List α,
      ms.foldl (fun d m => takeLast n (d ++ [m])) (takeLast n a) = takeLast n (a ++ ms) := by
  induction ms with
  | nil => intro a; simp
  | cons m rest ih =>
      intro a
      simp only [List.foldl_cons]
      rw [takeLast_idem_append, ih (a ++ [m]), List.append_assoc]
      rfl

namespace ContextManager

theorem add_message_max (cm : ContextManager) (k c r : String) (ts : Option Int) (now : Int) :
    (cm.add_message k c r ts now).max_messages_per_conversation
      = cm.max_messages_per_conversation := by
  unfold add_message conversationsGet
  cases h : alistFind cm.conversations k <;> simp [h]

theorem add_message_window (cm : ContextManager) (k c r : String) (ts : Option Int) (now : Int) :
    (cm.add_message k c r ts now).context_window_days = cm.context_window_days := by
  unfold add_message conversationsGet
  cases h : alistFind cm.conversations k <;> simp [h]

/-- After `add_message`, the key's stored deque is the previous one (empty
when the key was fresh) with the new message appended, truncated to the last
`max_messages_per_conversation` entries. -/
theorem find_add_message_self (cm : ContextManager) (k c r : String) (ts : Option Int)
    (now : Int) :
    alistFind (cm.add_message k c r ts now).conversations k
      = some (takeLast cm.max_messages_per_conversation
          (((alistFind cm.conversations k).getD [])
            ++ [{ content := c, role := r, timestamp := ts.getD now }])) := by
  unfold add_message conversationsGet
  cases h : alistFind cm.conversations k <;> simp [h, alistFind_alistSet_self]

/-- Lemma: `get_conversation_history` leaves the state unchanged when the key has a
record, and (through the `defaultdict` read) appends a fresh empty record
when it does not; the metadata map is untouched either way. -/
theorem get_history_state (cm : ContextManager) (k : String) (lim : Option Nat) (now : Int) :
    (cm.get_conversation_history k lim now).2
      = (match alistFind cm.conversations k with
         | some _ => cm
         | none => { cm with conversations := cm.conversations ++ [(k, [])] }) := by
  unfold get_conversation_history conversationsGet
  cases h : alistFind cm.conversations k <;> simp [h]

/-- The messages returned by a no-limit `get_conversation_history` call:
the stored deque filtered to the retention window. -/
theorem get_history_fst (cm : ContextManager) (k : String) (now : Int) :
    (cm.get_conversation_history k none now).1
      = ((alistFind cm.conversations k).getD []).filter
          (fun msg => now - cm.context_window_days ≤ msg.timestamp) := by
  unfold get_conversation_history conversationsGet
  cases h : alistFind cm.conversations k <;> simp [h]

/-- Reading the history of a key right after appending to it leaves the
store unchanged: the key is guaranteed to have a record. -/
theorem get_history_after_add (cm : ContextManager) (k c r : String) (ts : Option Int)
    (now : Int) (lim : Option Nat) (now2 : Int) :
    ((cm.add_message k c r ts now).get_conversation_history k lim now2).2
      = cm.add_message k c r ts now := by
  rw [get_history_state, find_add_message_self]

/-- A `limit` of `0` is falsy in `if limit and len(messages) > limit`, so it
truncates nothing. -/
theorem get_history_limit_zero (cm : ContextManager) (k : String) (now : Int) :
    (cm.get_conversation_history k (some 0) now).1
      = (cm.get_conversation_history k none now).1 := by
  unfold get_conversation_history conversationsGet
  cases h : alistFind cm.conversations k <;> simp [h]

theorem find_addAll (k : String) (now : Int) (ms : List (String × String × Option Int)) :
    ∀ (cm : ContextManager) (dq : List ConversationMessage),
      alistFind cm.conversations k = some dq →
      alistFind (cm.addAll k ms now).conversations k
          = some (ms.foldl
              (fun d p => takeLast cm.max_messages_per_conversation (d ++ [mkMessage now p])) dq)
        ∧ (cm.addAll k ms now).max_messages_per_conversation
            = cm.max_messages_per_conversation
        ∧ (cm.addAll k ms now).context_window_days = cm.context_window_days := by
  induction ms with
  | nil => intro cm dq h; simpa [addAll] using h
  | cons p rest ih =>
    intro cm dq h
    have hfind := find_add_message_self cm k p.1 p.2.1 p.2.2 now
    rw [h] at hfind
    have hmax := add_message_max cm k p.1 p.2.1 p.2.2 now
    have hwin := add_message_window cm k p.1 p.2.1 p.2.2 now
    have ih' := ih (cm.add_message k p.1 p.2.1 p.2.2 now) _ hfind
    have haddAll : cm.addAll k (p :: rest) now
        = (cm.add_message k p.1 p.2.1 p.2.2 now).addAll k rest now := rfl
    rw [haddAll]
    refine ⟨?_, ?_, ?_⟩
    · rw [ih'.1, hmax]
      simp [List.foldl_cons, mkMessage]
    · rw [ih'.2.1, hmax]
    · rw [ih'.2.2, hwin]

end ContextManager

/-! ## Claims about the conversation store -/

/-- C3: for every conversation key with capacity `N` and every sequence of at
least `N` appends to that key (all timestamps inside the time window),
`get_conversation_history` returns exactly the last `N` appended messages in
arrival order. -/
theorem claim_C3 (N : Nat) (w now : Int) (k : String)
    (ms : List (String × String × Option Int))
    (hN0 : 0 < N) (hN : N ≤ ms.length)
    (hts : ∀ p ∈ ms, now - w ≤ p.2.2.getD now) :
    (((ContextManager.init N w).addAll k ms now).get_conversation_history k none now).1
        = takeLast N (ms.map (ContextManager.mkMessage now))
      ∧ (((ContextManager.init N w).addAll k ms now).get_conversation_history
          k none now).1.length = N := by
  match ms, hN, hts with
  | [], hN, _ => exact absurd (Nat.lt_of_lt_of_le hN0 hN) (by simp)
  | p :: rest, hN, hts =>
    set cm0 := ContextManager.init N w with hcm0
    set cm1 := cm0.add_message k p.1 p.2.1 p.2.2 now with hcm1
    have hfind0 : alistFind cm0.conversations k = none := rfl
    have hfind1 : alistFind cm1.conversations k
        = some (takeLast N ([] ++ [ContextManager.mkMessage now p])) := by
      rw [hcm1, ContextManager.find_add_message_self, hfind0]
      rfl
    have hD := ContextManager.find_addAll k now rest cm1 _ hfind1
    have hmax1 : cm1.max_messages_per_conversation = N := by
      rw [hcm1, ContextManager.add_message_max]; rfl
    have hwin1 : cm1.context_window_days = w := by
      rw [hcm1, ContextManager.add_message_window]; rfl
    have haddAll : cm0.addAll k (p :: rest) now = cm1.addAll k rest now := rfl
    have hfoldl :
        rest.foldl (fun d q => takeLast cm1.max_messages_per_conversation
            (d ++ [ContextManager.mkMessage now q]))
            (takeLast N ([] ++ [ContextManager.mkMessage now p]))
          = takeLast N ((p :: rest).map (ContextManager.mkMessage now)) := by
      rw [hmax1, List.nil_append, ← List.foldl_map (ContextManager.mkMessage now)
        (fun d m => takeLast N (d ++ [m]))]
      have := foldl_takeLast_append N (rest.map (ContextManager.mkMessage now))
        [ContextManager.mkMessage now p]
      rw [this]
      rfl
    have hfindF : alistFind (cm0.addAll k (p :: rest) now).conversations k
        = some (takeLast N ((p :: rest).map (ContextManager.mkMessage now))) := by
      rw [haddAll, hD.1, hfoldl]
    have hwinF : (cm0.addAll k (p :: rest) now).context_window_days = w := by
      rw [haddAll, hD.2.2, hwin1]
    have hfst : ((cm0.addAll k (p :: rest) now).get_conversation_history k none now).1
        = takeLast N ((p :: rest).map (ContextManager.mkMessage now)) := by
      rw [ContextManager.get_history_fst, hfindF, hwinF, Option.getD_some]
      apply List.filter_eq_self.mpr
      intro x hx
      have hx' := mem_of_mem_takeLast hx
      obtain ⟨q, hq, rfl⟩ := List.mem_map.mp hx'
      exact decide_eq_true (hts q hq)
    refine ⟨hfst, ?_⟩
    rw [hfst, length_takeLast, List.length_map]
    exact Nat.min_eq_left hN

/-- Witness for C3 at the spec's Scenario A: capacity 3, four appends M1..M4
to key K, history returns [M2, M3, M4]. -/
theorem claim_C3_witness :
    ((((ContextManager.init 3 30).addAll "K"
          [("M1", "user", some 0), ("M2", "user", some 0),
           ("M3", "user", some 0), ("M4", "user", some 0)] 0).get_conversation_history
        "K" none 0).1
        = takeLast 3 ([("M1", "user", some 0), ("M2", "user", some 0),
            ("M3", "user", some 0), ("M4", "user", some 0)].map (ContextManager.mkMessage 0))
      ∧ ((((ContextManager.init 3 30).addAll "K"
          [("M1", "user", some 0), ("M2", "user", some 0),
           ("M3", "user", some 0), ("M4", "user", some 0)] 0).get_conversation_history
        "K" none 0).1.length = 3))
    ∧ (((ContextManager.init 3 30).addAll "K"
          [("M1", "user", some 0), ("M2", "user", some 0),
           ("M3", "user", some 0), ("M4", "user", some 0)] 0).get_conversation_history
        "K" none 0).1
        = [{ content := "M2", role := "user", timestamp := 0 },
           { content := "M3", role := "user", timestamp := 0 },
           { content := "M4", role := "user", timestamp := 0 }] :=
  ⟨claim_C3 3 30 0 "K"
      [("M1", "user", some 0), ("M2", "user", some 0),
       ("M3", "user", some 0), ("M4", "user", some 0)]
      (by decide) (by decide) (by decide),
    by decide⟩

/-- C4 counterexample: on the initial (empty) store, reading the history of
a key with no record mutates the store — the `defaultdict` read inserts an
empty record for that key, so the resulting state differs from the input
state.  The claim "calling history is a pure read ... including when the
queried key has no existing record" is therefore false as stated. -/
theorem claim_C4_cex :
    ((ContextManager.init 100 30).get_conversation_history "k" none 0).2
      ≠ ContextManager.init 100 30 := by decide

/-- C4 amended: `get_conversation_history` leaves the store unchanged
whenever the queried key already has a record; when it does not, the
conversations map gains exactly one fresh empty record for that key (the
`defaultdict` side effect) — in particular the metadata map and every
existing record are unchanged, and the returned history is unaffected. -/
theorem claim_C4 (cm : ContextManager) (k : String) (lim : Option Nat) (now : Int) :
    ((∃ dq, alistFind cm.conversations k = some dq) →
        (cm.get_conversation_history k lim now).2 = cm)
    ∧ (alistFind cm.conversations k = none →
        (cm.get_conversation_history k lim now).2
          = { cm with conversations := cm.conversations ++ [(k, [])] }) := by
  constructor
  · rintro ⟨dq, h⟩
    rw [ContextManager.get_history_state, h]
  · intro h
    rw [ContextManager.get_history_state, h]

/-- Witness for C4: a store holding one record for key K is returned intact
by a history read of K. -/
theorem claim_C4_witness :
    (((ContextManager.init 2 30).add_message "K" "m" "user" none 0).get_conversation_history
        "K" none 0).2
      = (ContextManager.init 2 30).add_message "K" "m" "user" none 0 :=
  (claim_C4 ((ContextManager.init 2 30).add_message "K" "m" "user" none 0) "K" none 0).1
    ⟨[{ content := "m", role := "user", timestamp := 0 }], by decide⟩

/-- C7: a message appended with timestamp `now - (windowDays + 1)` days is
excluded from the history result, and a message appended with timestamp
`now` is included (capacity at least one, non-negative window). -/
theorem claim_C7 (cm : ContextManager) (k c r : String) (now : Int)
    (hN : 1 ≤ cm.max_messages_per_conversation)
    (hw : 0 ≤ cm.context_window_days) :
    ({ content := c, role := r,
        timestamp := now - (cm.context_window_days + 1) } : ConversationMessage)
        ∉ ((cm.add_message k c r (some (now - (cm.context_window_days + 1)))
              now).get_conversation_history k none now).1
    ∧ ({ content := c, role := r, timestamp := now } : ConversationMessage)
        ∈ ((cm.add_message k c r (some now) now).get_conversation_history k none now).1 := by
  constructor
  · intro hmem
    rw [ContextManager.get_history_fst, ContextManager.add_message_window] at hmem
    have h2 := (List.mem_filter.mp hmem).2
    have h3 : now - cm.context_window_days ≤ now - (cm.context_window_days + 1) :=
      of_decide_eq_true h2
    omega
  · rw [ContextManager.get_history_fst, ContextManager.add_message_window,
      ContextManager.find_add_message_self, Option.getD_some]
    apply List.mem_filter.mpr
    constructor
    · rw [takeLast_append_one hN]
      exact List.mem_append_right _ (List.mem_singleton.mpr rfl)
    · exact decide_eq_true (show now - cm.context_window_days ≤ now by omega)

/-- Witness for C7 on the default store (capacity 100, window 30 days) at
`now = 0`: a message stamped -31 days is excluded, one stamped 0 included. -/
theorem claim_C7_witness :
    ({ content := "hi", role := "user", timestamp := 0 - (30 + 1) } : ConversationMessage)
        ∉ (((ContextManager.init 100 30).add_message "K" "hi" "user" (some (0 - (30 + 1)))
              0).get_conversation_history "K" none 0).1
    ∧ ({ content := "hi", role := "user", timestamp := 0 } : ConversationMessage)
        ∈ (((ContextManager.init 100 30).add_message "K" "hi" "user" (some 0)
              0).get_conversation_history "K" none 0).1 :=
  claim_C7 (ContextManager.init 100 30) "K" "hi" "user" 0 (by decide) (by decide)

/-- C9: a `limit` of `0` is treated as "no limit": whenever the in-window
history is non-empty, `get_conversation_history` with `limit = 0` returns
all in-window messages (the same list as with no limit), not the empty
list. -/
theorem claim_C9 (cm : ContextManager) (k : String) (now : Int)
    (hpos : (cm.get_conversation_history k none now).1 ≠ []) :
    (cm.get_conversation_history k (some 0) now).1
        = (cm.get_conversation_history k none now).1
    ∧ (cm.get_conversation_history k (some 0) now).1 ≠ [] := by
  refine ⟨ContextManager.get_history_limit_zero cm k now, ?_⟩
  rw [ContextManager.get_history_limit_zero]
  exact hpos

/-- Witness for C9 on a store holding one in-window message. -/
theorem claim_C9_witness :
    (((ContextManager.init 100 30).add_message "K" "m" "user" none 0).get_conversation_history
        "K" (some 0) 0).1
        = (((ContextManager.init 100 30).add_message "K" "m" "user"
            none 0).get_conversation_history "K" none 0).1
    ∧ (((ContextManager.init 100 30).add_message "K" "m" "user" none 0).get_conversation_history
        "K" (some 0) 0).1 ≠ [] :=
  claim_C9 ((ContextManager.init 100 30).add_message "K" "m" "user" none 0) "K" 0 (by decide)

/-! ## Claims about the personality engine -/

/-- C10: `update_interaction_history` for a sender with no registered
relationship profile leaves the engine entirely unchanged — it creates no
profile and records no interaction, for any message kind. -/
theorem claim_C10 (e : PersonalityEngine) (sender message_type : String) (now : Int)
    (h : alistFind e.relationships sender = none) :
    e.update_interaction_history sender message_type now = e := by
  unfold PersonalityEngine.update_interaction_history
  rw [h]

/-- Witness for C10: an engine with no relationship profiles is unchanged
by recording a received interaction from "bob". -/
theorem claim_C10_witness :
    sampleEngine.update_interaction_history "bob" "received" 5 = sampleEngine :=
  claim_C10 sampleEngine "bob" "received" 5 rfl

/-- C8 counterexample: with a configured trait of base weight `2` and no
relationship profile for the sender, the computed effective weight is `2`,
which is not in `[0, 1]` and differs from `clamp(base + 0, 0, 1) = 1`; the
claim that the effective weight always equals the clamp and always lies in
`[0, 1]` is therefore false for out-of-range base weights. -/
theorem claim_C8_cex :
    overloadEngine.active_traits_for_sender "bob" = [("overload", 2)]
    ∧ ¬ ((2 : Rat) ≤ 1)
    ∧ (2 : Rat) ≠ max 0 (min 1 (2 + 0)) := by
  refine ⟨by decide, by norm_num, by norm_num [min_def, max_def]⟩

/-- C8 amended: the clamp `max(0, min(1, base + adjustment))` is applied
only when the sender has a relationship profile carrying an adjustment for
the trait — then the effective weight is that clamp and lies in `[0, 1]`.
When the profile has no adjustment for the trait, or the sender has no
profile at all, the effective weight is the raw base weight, unclamped. -/
theorem claim_C8 (e : PersonalityEngine) (sender name : String) (trait : PersonalityTrait)
    (hmem : (name, trait) ∈ e.traits) :
    (∀ r adjustment, alistFind e.relationships sender = some r →
        alistFind r.personality_adjustments name = some adjustment →
          (name, max 0 (min 1 (trait.weight + adjustment)))
              ∈ e.active_traits_for_sender sender
            ∧ 0 ≤ max 0 (min 1 (trait.weight + adjustment))
            ∧ max 0 (min 1 (trait.weight + adjustment)) ≤ 1)
    ∧ (∀ r, alistFind e.relationships sender = some r →
        alistFind r.personality_adjustments name = none →
          (name, trait.weight) ∈ e.active_traits_for_sender sender)
    ∧ (alistFind e.relationships sender = none →
        (name, trait.weight) ∈ e.active_traits_for_sender sender) := by
  unfold PersonalityEngine.active_traits_for_sender PersonalityEngine.get_active_traits
  refine ⟨?_, ?_, ?_⟩
  · intro r adjustment hr hadj
    rw [hr]
    refine ⟨?_, le_max_left 0 _, max_le (by norm_num) (min_le_left 1 _)⟩
    exact List.mem_map.mpr ⟨(name, trait), hmem, by simp [hadj]⟩
  · intro r hr hadj
    rw [hr]
    exact List.mem_map.mpr ⟨(name, trait), hmem, by simp [hadj]⟩
  · intro hr
    rw [hr]
    exact List.mem_map.mpr ⟨(name, trait), hmem, by simp⟩

/-- Witness for C8 on `adjustEngine`: the trait "helpfulness" (base `8/10`)
with the `+1/2` adjustment of "alice" yields the clamped weight, inside
`[0, 1]`. -/
theorem claim_C8_witness :
    ("helpfulness", max 0 (min 1 ((8 : Rat) / 10 + 1 / 2)))
        ∈ adjustEngine.active_traits_for_sender "alice"
    ∧ 0 ≤ max 0 (min 1 ((8 : Rat) / 10 + 1 / 2))
    ∧ max 0 (min 1 ((8 : Rat) / 10 + 1 / 2)) ≤ 1 :=
  (claim_C8 adjustEngine "alice" "helpfulness"
      { name := "helpfulness", weight := 8 / 10, description := "",
        examples := [], active_contexts := [] }
      (List.mem_singleton.mpr rfl)).1 aliceProfile (1 / 2) rfl rfl

/-! ## Claims about the orchestrator pipeline -/

/-- Helper: with the sender on the ignore list, `_should_respond` returns
`False` without reaching the personality engine. -/
theorem should_respond_check_ignored (c : DigitalClone) (sender content : String)
    (timeOfDay : Int) (draw : Rat)
    (hs : c.settings.ignore_senders.contains sender = true) :
    c.should_respond_check sender content timeOfDay draw = (false, false) := by
  unfold DigitalClone.should_respond_check
  rw [hs]
  simp

/-- C2: for every incoming message whose sender is on the configured ignore
list, `process_message` returns no response and the personality engine's
probability evaluation is never invoked (the second component of the
instrumented `_should_respond` stays `false`), whatever the content. -/
theorem claim_C2 (c : DigitalClone) (platform_name sender content : String)
    (timeOfDay : Int) (draw : Rat) (now : Int) (genResult : Option String)
    (hs : c.settings.ignore_senders.contains sender = true) :
    c.should_respond_check sender content timeOfDay draw = (false, false)
    ∧ (c.process_message platform_name sender content timeOfDay draw now genResult).1
        = none := by
  refine ⟨should_respond_check_ignored c sender content timeOfDay draw hs, ?_⟩
  unfold DigitalClone.process_message
  rcases Bool.eq_false_or_eq_true c.is_running with hcr | hcr
  · rw [hcr]
    rw [if_neg (by simp)]
    rw [if_pos (by rw [should_respond_check_ignored c sender content timeOfDay draw hs])]
  · rw [hcr]
    simp

/-- Witness for C2 at the spec's Scenario B: the ignored sender "blocked"
sends "please help urgent" (which contains trigger words); no response is
produced and the personality engine is not consulted. -/
theorem claim_C2_witness :
    cloneIgnore.should_respond_check "blocked" "please help urgent" 720 (99 / 100)
        = (false, false)
    ∧ (cloneIgnore.process_message "whatsapp" "blocked" "please help urgent" 720
        (99 / 100) 0 (some "ok")).1 = none :=
  claim_C2 cloneIgnore "whatsapp" "blocked" "please help urgent" 720 (99 / 100) 0
    (some "ok") (by decide)

/-- C1 counterexample: with the default configuration, a non-ignored sender
("alice"), the trigger-bearing content "please help urgent", time 720
minutes (inside active hours) and a uniform draw of 0.99, the pipeline
responds (the generator output "ok" is returned), and `_should_respond`
returned `True` on the trigger-word short-circuit without evaluating the
personality engine — contradicting the claim that this scenario produces no
response and that the probability algorithm decides it. -/
theorem claim_C1_cex :
    (sampleClone.process_message "whatsapp" "alice" "please help urgent" 720 (99 / 100) 0
        (some "ok")).1 = some "ok"
    ∧ sampleClone.should_respond_check "alice" "please help urgent" 720 (99 / 100)
        = (true, false) := by
  refine ⟨by decide, by decide⟩

/-- C1 amended: for a non-ignored sender whose content contains a configured
trigger word, `_should_respond` returns `True` immediately and the
personality engine's probability algorithm is never consulted, so the
pipeline responds.  The probability algorithm itself, evaluated directly
with base probability `0.8`, no relationship profile, a trigger word
present and the time of day inside active hours, computes `0.8 * 1.2 =
0.96`, and a uniform draw of `0.99` then yields `respond = false` — the
trigger word only scales that probability inside the engine; it forces a
response at the orchestrator. -/
theorem claim_C1 (c : DigitalClone) (sender content : String) (timeOfDay : Int) (draw : Rat)
    (e : PersonalityEngine) (psender pcontent : String) (ptime : Int)
    (hig : c.settings.ignore_senders.contains sender = false)
    (htr : c.settings.response_triggers.any
        (fun word => strContains (pyLower content) word) = true)
    (hprob : e.response_probability = 8 / 10)
    (hrel : alistFind e.relationships psender = none)
    (hstart : e.active_hours_start = 480)
    (hend : e.active_hours_end = 1320)
    (hptr : PersonalityEngine.contentTriggers.any
        (fun word => strContains (pyLower pcontent) word) = true)
    (hpt1 : 480 ≤ ptime) (hpt2 : ptime ≤ 1320) :
    c.should_respond_check sender content timeOfDay draw = (true, false)
    ∧ e.response_prob psender pcontent ptime = 96 / 100
    ∧ e.should_respond psender pcontent ptime (99 / 100) = false := by
  have h2 : e.response_prob psender pcontent ptime = 96 / 100 := by
    simp only [PersonalityEngine.response_prob, hrel, hprob, hptr, hstart, hend, if_true]
    rw [if_neg (by push_neg; exact ⟨hpt1, hpt2⟩)]
    norm_num
  refine ⟨?_, h2, ?_⟩
  · have hig' : sender ∉ c.settings.ignore_senders := by simpa using hig
    simp [DigitalClone.should_respond_check, hig', htr]
  · unfold PersonalityEngine.should_respond
    rw [h2]
    rw [decide_eq_false_iff_not, not_lt, min_eq_right (by norm_num : (96 : Rat) / 100 ≤ 1)]
    norm_num

/-- Witness for C1 at the spec's Scenario C inputs: default settings and
engine, sender "alice", content "please help urgent", time 720 minutes,
draw 0.99. -/
theorem claim_C1_witness :
    sampleClone.should_respond_check "alice" "please help urgent" 720 (99 / 100)
        = (true, false)
    ∧ sampleEngine.response_prob "alice" "please help urgent" 720 = 96 / 100
    ∧ sampleEngine.should_respond "alice" "please help urgent" 720 (99 / 100) = false :=
  claim_C1 sampleClone "alice" "please help urgent" 720 (99 / 100) sampleEngine "alice"
    "please help urgent" 720 (by decide) (by decide) rfl rfl rfl rfl (by decide)
    (by decide) (by decide)

/-- C5 counterexample: a whitespace-only generator result "   " is not
treated like a generation failure — it is appended to the conversation
store as an assistant message and returned by `process_message`,
contradicting the claim that blank-after-trimming text yields no appended
message and nothing to send. -/
theorem claim_C5_cex :
    (sampleClone.process_message "whatsapp" "alice" "please help urgent" 720 (99 / 100) 0
        (some "   ")).1 = some "   "
    ∧ alistFind (sampleClone.process_message "whatsapp" "alice" "please help urgent" 720
          (99 / 100) 0 (some "   ")).2.context_manager.conversations "whatsapp:alice"
      = some [{ content := "please help urgent", role := "user", timestamp := 0 },
              { content := "   ", role := "assistant", timestamp := 0 }] := by
  refine ⟨by decide, by decide⟩

/-- C5 amended: in the respond path, `process_message` returns exactly the
generator's result (`None` stays `None`, `""` is returned as-is), and the
assistant message is appended precisely when the result is a non-empty
string — with no trimming, so a whitespace-only result is appended and
returned; only `None` and the empty string are skipped. -/
theorem claim_C5 (c : DigitalClone) (platform_name sender content : String)
    (timeOfDay : Int) (draw : Rat) (now : Int) (genResult : Option String)
    (hrun : c.is_running = true)
    (hdec : (c.should_respond_check sender content timeOfDay draw).1 = true) :
    (c.process_message platform_name sender content timeOfDay draw now genResult).1
        = genResult
    ∧ ((genResult = none ∨ genResult = some "") →
        (c.process_message platform_name sender content timeOfDay draw now
            genResult).2.context_manager
          = c.context_manager.add_message (platform_name ++ ":" ++ sender) content "user"
              none now)
    ∧ (∀ s, genResult = some s → s ≠ "" →
        (c.process_message platform_name sender content timeOfDay draw now
            genResult).2.context_manager
          = (c.context_manager.add_message (platform_name ++ ":" ++ sender) content "user"
              none now).add_message (platform_name ++ ":" ++ sender) s "assistant"
              none now) := by
  unfold DigitalClone.process_message
  rw [hrun]
  rw [if_neg (by simp)]
  rw [if_neg (by simp [hdec])]
  rw [ContextManager.get_history_after_add]
  refine ⟨?_, ?_, ?_⟩
  · cases genResult with
    | none => rfl
    | some s =>
        by_cases hse : s = "" <;> simp [hse]
  · rintro (rfl | rfl)
    · rfl
    · simp
  · rintro s rfl hse
    simp [hse]

/-- Witness for C5: with a non-empty generator result "ok", the response is
returned and the assistant message appended after the user message. -/
theorem claim_C5_witness :
    (sampleClone.process_message "whatsapp" "alice" "please help urgent" 720 (99 / 100) 0
        (some "ok")).1 = some "ok"
    ∧ (sampleClone.process_message "whatsapp" "alice" "please help urgent" 720 (99 / 100) 0
        (some "ok")).2.context_manager
      = (sampleClone.context_manager.add_message ("whatsapp" ++ ":" ++ "alice")
          "please help urgent" "user" none 0).add_message ("whatsapp" ++ ":" ++ "alice")
          "ok" "assistant" none 0 :=
  ⟨(claim_C5 sampleClone "whatsapp" "alice" "please help urgent" 720 (99 / 100) 0
      (some "ok") rfl (by decide)).1,
    (claim_C5 sampleClone "whatsapp" "alice" "please help urgent" 720 (99 / 100) 0
      (some "ok") rfl (by decide)).2.2 "ok" rfl (by decide)⟩

/-- C6 counterexample: calling `start()` on a running clone — even one with
no LLM provider bound — returns normally (an early no-op with a logged
warning); no `AlreadyRunning` error is raised, contradicting "start() fails
with an AlreadyRunning error whenever the orchestrator is not in the
Stopped state". -/
theorem claim_C6_cex :
    (runningNoGenClone.start).1 = DigitalClone.StartOutcome.alreadyRunningNoop
    ∧ (runningNoGenClone.start).1.isError = false := by
  refine ⟨by decide, by decide⟩

/-- C6 amended: `start()` on a running clone is a silent no-op (a warning is
logged, no error raised, state unchanged); on a stopped clone with no
generator bound it raises `ValueError` ("LLM Provider must be set before
starting"); it starts the clone — sets `is_running` — only from the stopped
state with a generator bound. -/
theorem claim_C6 (c : DigitalClone) :
    (c.is_running = true →
        c.start = (DigitalClone.StartOutcome.alreadyRunningNoop, c)
        ∧ (c.start).1.isError = false)
    ∧ (c.is_running = false → c.llm_provider = none →
        c.start = (DigitalClone.StartOutcome.errNoGenerator, c)
        ∧ (c.start).1.isError = true)
    ∧ (c.is_running = false → c.llm_provider ≠ none →
        c.start = (DigitalClone.StartOutcome.started, { c with is_running := true })) := by
  refine ⟨?_, ?_, ?_⟩
  · intro h
    constructor <;> simp [DigitalClone.start, h, DigitalClone.StartOutcome.isError]
  · intro h1 h2
    constructor <;> simp [DigitalClone.start, h1, h2, DigitalClone.StartOutcome.isError]
  · intro h1 h2
    simp [DigitalClone.start, h1, h2]

/-- Witness for C6: a stopped clone with no provider bound gets the raised
`ValueError` outcome. -/
theorem claim_C6_witness :
    stoppedNoGenClone.start = (DigitalClone.StartOutcome.errNoGenerator, stoppedNoGenClone)
    ∧ (stoppedNoGenClone.start).1.isError = true :=
  (claim_C6 stoppedNoGenClone).2.1 rfl rfl
